import Mathlib

/-!
Shallow embedding of marc0janssen/external-IP-checker.

Two scripts are modelled:
* `src/app/check_ip_based_on_dns.py` — compares the external IP against the
  DNS A-records of a configured hostname (`DnsChecker` namespace);
* `src/app/check_ip_based_on_previous_value.py` — compares the external IP
  against a single previously persisted value (`PersistedChecker` namespace).

External collaborators (the HTTP fetch of the external IP, the DNS resolver,
the Pushover notifier via `chump`, and the filesystem) are modelled as
explicit inputs: the fetch as an `Except`, the DNS answer as a sum of the
failure kinds the code distinguishes, the saved-IP file as a `FileState`,
success/failure of the write as a boolean, and success/failure of the
notification sends as a boolean per call.
Observable effects (log lines, notification calls, file writes) are recorded
as an ordered event list; a notification send that fails raises in the
Python code and is caught by the outer `except Exception` handler of `run`,
which is modelled faithfully by cutting the run short after the call.
-/

/-- Observable effects of one run, in program order.  `notifyCall` records
that `send_message` was invoked with the given message body; `saveWrite`
records a successful `file.write` of the given content. -/
inductive Event
  | logInfo (msg : String)
  | logError (msg : String)
  | notifyCall (msg : String)
  | saveWrite (content : String)
  deriving DecidableEq, Repr

/-- The messages of the notification calls among `evs`, in order. -/
def notifyMsgs (evs : List Event) : List String :=
  evs.filterMap fun e =>
    match e with
    | .notifyCall m => some m
    | _ => none

/-- The contents of the successful file writes among `evs`, in order. -/
def saveWrites (evs : List Event) : List String :=
  evs.filterMap fun e =>
    match e with
    | .saveWrite c => some c
    | _ => none

/-! ## IP-address validity

`External_IP_Checker.is_valid_ip` (src/app/check_ip_based_on_previous_value.py,
lines 79-86) calls the Python standard library `ipaddress.ip_address`, which
accepts a string iff it parses as an IPv4 address or as an IPv6 address.
The definitions below model CPython's `ipaddress` parsing (module
`Lib/ipaddress.py`, Python ≥ 3.9.5): `_BaseV4._parse_octet` /
`_ip_int_from_string` for IPv4 and `_BaseV6._ip_int_from_string` (with the
`%scope` split of `IPv6Address.__init__`) for IPv6. -/

/-- Split a character list on a separator, keeping empty segments, as
Python's `str.split(sep)` does (`''.split(sep) = ['']`). -/
def splitOnChar (sep : Char) : List Char → List (List Char)
  | [] => [[]]
  | c :: cs =>
      let r := splitOnChar sep cs
      if c = sep then [] :: r
      else
        match r with
        | [] => [[c]]
        | p :: ps => (c :: p) :: ps

/-- ASCII decimal digit (Python's `s.isascii() and s.isdigit()` per char). -/
def isDigitChar (c : Char) : Bool :=
  '0' ≤ c && c ≤ '9'

/-- ASCII hexadecimal digit (`_BaseV6._HEX_DIGITS`). -/
def isHexChar (c : Char) : Bool :=
  isDigitChar c || ('a' ≤ c && c ≤ 'f') || ('A' ≤ c && c ≤ 'F')

/-- Decimal value of a digit string. -/
def decValue (p : List Char) : Nat :=
  p.foldl (fun a c => 10 * a + (c.toNat - '0'.toNat)) 0

/-- `_BaseV4._parse_octet`: non-empty, ASCII digits only, at most 3 chars,
no leading zero, value at most 255. -/
def parseOctet (p : List Char) : Bool :=
  !p.isEmpty && p.all isDigitChar && p.length ≤ 3 &&
    !(p.length > 1 && p.head? == some '0') && decValue p ≤ 255

/-- `IPv4Address` validity: exactly four octets separated by dots
(`_BaseV4._ip_int_from_string`). -/
def isIPv4 (l : List Char) : Bool :=
  let octets := splitOnChar '.' l
  octets.length == 4 && octets.all parseOctet

/-- `_BaseV6._parse_hextet`: hex digits only, at most 4 chars, non-empty
(the empty string fails `int(s, 16)`). -/
def parseHextet (p : List Char) : Bool :=
  p.all isHexChar && p.length ≤ 4 && !p.isEmpty

/-- Indices of empty parts strictly between the first and last part
(the loop `for i in range(1, len(parts) - 1)` of `_ip_int_from_string`). -/
def interiorEmpties (parts : List (List Char)) : List Nat :=
  (List.range parts.length).filter fun i =>
    decide (1 ≤ i) && decide (i + 1 < parts.length) && (parts.get? i == some [])

/-- `_BaseV6._ip_int_from_string` after the embedded-IPv4 rewrite: checks the
part count, the placement of at most one `::`, and each kept hextet. -/
def ipv6Parts (parts : List (List Char)) : Bool :=
  if parts.length > 9 then false
  else
    match interiorEmpties parts with
    | [] =>
        parts.length == 8 &&
        !(parts.head? == some []) &&
        !(parts.getLast? == some []) &&
        parts.all parseHextet
    | [i] =>
        let n := parts.length
        let headEmpty := parts.head? == some ([] : List Char)
        let lastEmpty := parts.getLast? == some ([] : List Char)
        let hi := if headEmpty then i - 1 else i
        let lo := if lastEmpty then n - i - 2 else n - i - 1
        (!headEmpty || i == 1) &&
        (!lastEmpty || n - i - 1 == 1) &&
        hi + lo + 1 ≤ 8 &&
        (parts.take hi).all parseHextet &&
        (parts.drop (n - lo)).all parseHextet
    | _ => false

/-- IPv6 address body without scope: split on `:`, rewrite an embedded
dotted-quad final part into two hextets, then check the parts. -/
def isIPv6NoScope (l : List Char) : Bool :=
  let parts := splitOnChar ':' l
  if parts.length < 3 then false
  else
    match parts.getLast? with
    | none => false
    | some lastp =>
        if lastp.contains '.' then
          isIPv4 lastp && ipv6Parts (parts.dropLast ++ [['0'], ['0']])
        else
          ipv6Parts parts

/-- Split off everything after the first occurrence of `sep`, as Python's
`str.partition`: `none` when `sep` does not occur. -/
def splitFirst (sep : Char) : List Char → List Char × Option (List Char)
  | [] => ([], none)
  | c :: cs =>
      if c = sep then ([], some cs)
      else
        let r := splitFirst sep cs
        (c :: r.1, r.2)

/-- `IPv6Address` validity, including the `%scope_id` suffix accepted since
Python 3.9: the scope id must be non-empty and contain no further `%`. -/
def isIPv6 (l : List Char) : Bool :=
  match splitFirst '%' l with
  | (addr, none) => isIPv6NoScope addr
  | (addr, some scope) =>
      isIPv6NoScope addr && !scope.isEmpty && !scope.contains '%'

/-- `External_IP_Checker.is_valid_ip` (check_ip_based_on_previous_value.py,
lines 79-86): `ipaddress.ip_address(address)` succeeds iff the string is a
valid IPv4 or IPv6 address. -/
def is_valid_ip (address : String) : Bool :=
  isIPv4 address.data || isIPv6 address.data

/-! ## DNS variant (src/app/check_ip_based_on_dns.py) -/

namespace DnsChecker

/-- Result of `resolver.resolve(url, 'A')` as the code distinguishes it:
`dns.resolver.NXDOMAIN`, `dns.resolver.NoAnswer`, any other exception, or a
list of A-records in DNS response order (`answer.to_text()` strings). -/
inductive DnsResult
  | nxdomain
  | noAnswer
  | failure (msg : String)
  | answers (records : List String)
  deriving DecidableEq, Repr

/-- Decision reached by `run`: an early logged return, a match against some
A-record, or a mismatch against every A-record. -/
inductive Outcome
  | EARLY
  | MATCH
  | MISMATCH
  deriving DecidableEq, Repr

/-- One run's decision and its ordered effects. -/
structure RunResult where
  outcome : Outcome
  events : List Event
  deriving DecidableEq, Repr

/-- Notification body of the mismatch loop (lines 126-130):
`URL = {url}\nExternal IP = {external_ip}\nA-record = {dns_ip}`. -/
def mismatchMsg (url external_ip dns_ip : String) : String :=
  "URL = " ++ url ++ "\nExternal IP = " ++ external_ip ++
    "\nA-record = " ++ dns_ip

/-- Error log line of the mismatch loop (lines 135-138). -/
def mismatchLog (url external_ip dns_ip : String) : String :=
  "Mismatch! - URL=" ++ url ++ " - External IP=" ++ external_ip ++
    " - A-record=" ++ dns_ip

/-- Info log line of the match branch (lines 116-119). -/
def matchLog (url external_ip dns_ip : String) : String :=
  "Matches! - URL=" ++ url ++ " - External IP=" ++ external_ip ++
    " - A-record=" ++ dns_ip

/-- Log line of the outer `except Exception` handler (lines 140-141),
reached when `send_message` raises. -/
def unexpectedLog : String :=
  "Unexpected error in run: notification send failed"

/-- The mismatch loop of lines 122-138: for each A-record, one
`send_message` call followed by one error log.  `sendOk k` says whether the
k-th send of the run succeeds; a raising send is caught by the outer
`except Exception` handler (lines 140-141), which logs the error and ends
the run, truncating the loop after that call — the remaining records get
neither a notification nor a log line. -/
def notifyLoop (url external_ip : String) (sendOk : Nat → Bool) :
    Nat → List String → List Event
  | _, [] => []
  | k, dns_ip :: rest =>
      if sendOk k then
        .notifyCall (mismatchMsg url external_ip dns_ip)
          :: .logError (mismatchLog url external_ip dns_ip)
          :: notifyLoop url external_ip sendOk (k + 1) rest
      else
        [.notifyCall (mismatchMsg url external_ip dns_ip),
         .logError unexpectedLog]

/-- `External_IP_Checker.run` (check_ip_based_on_dns.py, lines 74-141).
`fetch` is the outcome of `get(API_URL, ...).text`, `dns` the outcome of the
A-record resolution, and `sendOk k` whether the k-th `send_message` call of
the run succeeds (this run sends only in the mismatch loop).  On mismatch
the code iterates over **all** answers, sending one notification and
logging one error line per record, until a send raises. -/
def run (url : String) (fetch : Except String String) (dns : DnsResult)
    (sendOk : Nat → Bool) : RunResult :=
  match fetch with
  | .error e =>
      ⟨.EARLY, [.logError ("Failed to fetch external IP: " ++ e)]⟩
  | .ok external_ip =>
      match dns with
      | .nxdomain =>
          ⟨.EARLY, [.logError ("Domain " ++ url ++ " does not exist")]⟩
      | .noAnswer =>
          ⟨.EARLY, [.logError ("No A records found for " ++ url)]⟩
      | .failure e =>
          ⟨.EARLY, [.logError ("DNS resolution failed: " ++ e)]⟩
      | .answers records =>
          match records.find? (fun r => r == external_ip) with
          | some dns_ip =>
              ⟨.MATCH, [.logInfo (matchLog url external_ip dns_ip)]⟩
          | none =>
              ⟨.MISMATCH, notifyLoop url external_ip sendOk 0 records⟩

end DnsChecker

/-! ## Persisted variant (src/app/check_ip_based_on_previous_value.py) -/

namespace PersistedChecker

/-- State of `/config/saved_ip.txt`: present with the given raw content,
absent, or present but unreadable (permissions error, etc.). -/
inductive FileState
  | present (content : String)
  | absent
  | unreadable
  deriving DecidableEq, Repr

/-- Characters of the first line of a file's content: what
`file.readline().rstrip('\n')` yields. -/
def firstLineChars : List Char → List Char
  | [] => []
  | c :: cs => if c = '\n' then [] else c :: firstLineChars cs

/-- First line of a file's content, without its newline. -/
def firstLine (s : String) : String :=
  ⟨firstLineChars s.data⟩

/-- `External_IP_Checker._read_saved_ip` (lines 88-94): the first line of the
file, or `None` when opening fails — both `FileNotFoundError` (absent) and
any other `IOError` (unreadable) are caught and mapped to `None`. -/
def read_saved_ip : FileState → Option String
  | .present c => some (firstLine c)
  | .absent => none
  | .unreadable => none

/-- `External_IP_Checker._save_ip` (lines 96-105): overwrite the file with
exactly `ip_address` and log success, or log an error and leave the file
alone.  `saveOk` stands for whether the `open(..., "w")`/`write` raises
`IOError`.  Returns the boolean result, the effects, and the new file
state. -/
def save_ip (saveOk : Bool) (ip_address : String) (fs : FileState) :
    Bool × List Event × FileState :=
  if saveOk then
    (true,
     [.saveWrite ip_address, .logInfo "External IP saved successfully."],
     .present ip_address)
  else
    (false,
     [.logError "An error occurred while saving the file."],
     fs)

/-- Decision reached by `run`: early return on fetch failure, abort on an
invalid candidate, or the bootstrap/match/mismatch decision of the
comparator. -/
inductive Outcome
  | EARLY
  | INVALID
  | BOOTSTRAP
  | MATCH
  | MISMATCH
  deriving DecidableEq, Repr

/-- One run's decision, ordered effects, and resulting file state. -/
structure RunResult where
  outcome : Outcome
  events : List Event
  file : FileState
  deriving DecidableEq, Repr

/-- Notification body of the bootstrap branch (lines 143-146). -/
def bootstrapMsg (external_ip : String) : String :=
  "External IP has been saved!\nCurrent IP = " ++ external_ip ++ "\n"

/-- Notification body of the mismatch branch (lines 153-157). -/
def mismatchMsg (saved_ip external_ip : String) : String :=
  "External IP has changed!\nPrevious IP = " ++ saved_ip ++
    "\nCurrent IP = " ++ external_ip ++ "\n"

/-- Error log line of the mismatch branch (lines 162-165). -/
def mismatchLog (saved_ip external_ip : String) : String :=
  "Mismatch! - Previous IP = " ++ saved_ip ++
    " - Current IP = " ++ external_ip

/-- Info log line of the match branch (lines 169-172). -/
def matchLog (saved_ip external_ip : String) : String :=
  "Match! - Previous IP = " ++ saved_ip ++ " - Current IP = " ++ external_ip

/-- Log line of the outer `except Exception` handler (lines 174-175),
reached when `send_message` raises. -/
def unexpectedLog : String :=
  "Unexpected error in run: notification send failed"

/-- `External_IP_Checker.run` (check_ip_based_on_previous_value.py, lines
107-175).  `fetch` is the outcome of the external-IP HTTP GET, `saveOk`
whether a file write would succeed, `notifyOk` whether `send_message`
succeeds (when it raises, control reaches the outer `except Exception`
handler, which logs and ends the run — any statement after the send is then
skipped). -/
def run (fetch : Except String String) (saveOk notifyOk : Bool)
    (fs : FileState) : RunResult :=
  match fetch with
  | .error e =>
      ⟨.EARLY, [.logError ("Failed to fetch external IP: " ++ e)], fs⟩
  | .ok external_ip =>
      if !is_valid_ip external_ip then
        ⟨.INVALID,
         [.logError "Web service did not respond with a valid IP address!"],
         fs⟩
      else
        match read_saved_ip fs with
        | none =>
            let r := save_ip saveOk external_ip fs
            if r.1 then
              if notifyOk then
                ⟨.BOOTSTRAP,
                 r.2.1 ++ [.notifyCall (bootstrapMsg external_ip)],
                 r.2.2⟩
              else
                ⟨.BOOTSTRAP,
                 r.2.1 ++ [.notifyCall (bootstrapMsg external_ip),
                           .logError unexpectedLog],
                 r.2.2⟩
            else
              ⟨.BOOTSTRAP, r.2.1, r.2.2⟩
        | some saved_ip =>
            if saved_ip ≠ external_ip then
              if notifyOk then
                let r := save_ip saveOk external_ip fs
                ⟨.MISMATCH,
                 [.notifyCall (mismatchMsg saved_ip external_ip),
                  .logError (mismatchLog saved_ip external_ip)] ++ r.2.1,
                 r.2.2⟩
              else
                ⟨.MISMATCH,
                 [.notifyCall (mismatchMsg saved_ip external_ip),
                  .logError unexpectedLog],
                 fs⟩
            else
              ⟨.MATCH, [.logInfo (matchLog saved_ip external_ip)], fs⟩

end PersistedChecker

/-! ## Helper lemmas -/

theorem notifyLoop_all_sends_ok (url ip : String) (sendOk : Nat → Bool)
    (h : ∀ j, sendOk j = true) (records : List String) (k : Nat) :
    notifyMsgs (DnsChecker.notifyLoop url ip sendOk k records)
      = records.map fun dns_ip => DnsChecker.mismatchMsg url ip dns_ip := by
  induction records generalizing k with
  | nil => rfl
  | cons r rs ih =>
      simp only [DnsChecker.notifyLoop, h k, if_true, List.map_cons,
        notifyMsgs, List.filterMap_cons]
      exact congrArg (DnsChecker.mismatchMsg url ip r :: ·) (ih (k + 1))

theorem firstLineChars_eq_self {l : List Char} (h : '\n' ∉ l) :
    PersistedChecker.firstLineChars l = l := by
  induction l with
  | nil => rfl
  | cons c cs ih =>
      simp only [List.mem_cons, not_or] at h
      simp only [PersistedChecker.firstLineChars]
      rw [if_neg (fun hc => h.1 hc.symm), ih h.2]

theorem firstLine_eq_self {X : String} (h : '\n' ∉ X.data) :
    PersistedChecker.firstLine X = X := by
  cases X with
  | mk l => exact congrArg String.mk (firstLineChars_eq_self h)

/-! ## Claim theorems -/

/-- C1 counterexample: candidate `198.51.100.2` absent from the two-record
baseline, but the first `send_message` raises: the outer `except Exception`
handler (lines 140-141) catches it and truncates the mismatch loop, so the
notifier is called once, not N = 2 times — the unconditional exactly-N
claim fails. -/
theorem dns_mismatch_truncated_on_send_failure_cex :
    (DnsChecker.run "example.com" (.ok "198.51.100.2")
        (.answers ["203.0.113.5", "203.0.113.9"]) (fun _ => false)).outcome
      = DnsChecker.Outcome.MISMATCH ∧
    notifyMsgs (DnsChecker.run "example.com" (.ok "198.51.100.2")
        (.answers ["203.0.113.5", "203.0.113.9"]) (fun _ => false)).events
      = [DnsChecker.mismatchMsg "example.com" "198.51.100.2"
          "203.0.113.5"] ∧
    (notifyMsgs (DnsChecker.run "example.com" (.ok "198.51.100.2")
        (.answers ["203.0.113.5", "203.0.113.9"])
        (fun _ => false)).events).length
      ≠ (["203.0.113.5", "203.0.113.9"] : List String).length := by
  decide

/-- C1 (amended): DNS variant — when the candidate external IP equals no
element of a non-empty resolved A-record list of size N, the run's outcome
is MISMATCH and, provided every `send_message` call succeeds, the notifier
is called exactly N times, one call per record in DNS response order, each
message body citing that record as the A-record compared.  (If a send
raises, the outer exception handler ends the run after that call, so the
records after it get no notification.) -/
theorem dns_mismatch_notifies_every_record (url external_ip : String)
    (records : List String) (sendOk : Nat → Bool) (hne : records ≠ [])
    (hnot : external_ip ∉ records) (hsend : ∀ j, sendOk j = true) :
    (DnsChecker.run url (.ok external_ip) (.answers records)
          sendOk).outcome
        = DnsChecker.Outcome.MISMATCH ∧
    notifyMsgs (DnsChecker.run url (.ok external_ip) (.answers records)
          sendOk).events
        = records.map
            (fun dns_ip => DnsChecker.mismatchMsg url external_ip dns_ip) ∧
    (notifyMsgs (DnsChecker.run url (.ok external_ip) (.answers records)
          sendOk).events).length
        = records.length := by
  have hfind : records.find? (fun r => r == external_ip) = none := by
    rw [List.find?_eq_none]
    intro x hx
    simp only [beq_iff_eq]
    intro hxe
    exact hnot (hxe ▸ hx)
  refine ⟨?_, ?_, ?_⟩ <;>
    simp [DnsChecker.run, hfind, notifyLoop_all_sends_ok url external_ip
      sendOk hsend]

/-- Witness for the amended C1: url `example.com`, candidate
`198.51.100.2`, records `203.0.113.5` and `203.0.113.9`, every send
succeeding. -/
theorem dns_mismatch_notifies_every_record_witness :
    (["203.0.113.5", "203.0.113.9"] : List String) ≠ [] ∧
    "198.51.100.2" ∉ (["203.0.113.5", "203.0.113.9"] : List String) ∧
    (∀ j : Nat, (fun _ : Nat => true) j = true) ∧
    ((DnsChecker.run "example.com" (.ok "198.51.100.2")
          (.answers ["203.0.113.5", "203.0.113.9"])
          (fun _ => true)).outcome
        = DnsChecker.Outcome.MISMATCH ∧
     notifyMsgs (DnsChecker.run "example.com" (.ok "198.51.100.2")
          (.answers ["203.0.113.5", "203.0.113.9"])
          (fun _ => true)).events
        = ["203.0.113.5", "203.0.113.9"].map
            (fun dns_ip =>
              DnsChecker.mismatchMsg "example.com" "198.51.100.2" dns_ip) ∧
     (notifyMsgs (DnsChecker.run "example.com" (.ok "198.51.100.2")
          (.answers ["203.0.113.5", "203.0.113.9"])
          (fun _ => true)).events).length
        = (["203.0.113.5", "203.0.113.9"] : List String).length) :=
  ⟨by decide, by decide, fun _ => rfl,
    dns_mismatch_notifies_every_record "example.com" "198.51.100.2"
      ["203.0.113.5", "203.0.113.9"] (fun _ => true) (by decide)
      (by decide) (fun _ => rfl)⟩

/-- C2: both variants — a candidate equal to some baseline element (any
resolved A-record, resp. the persisted value) yields outcome MATCH with zero
notifier calls; in the persisted variant additionally no storage write
occurs and the file is unchanged. -/
theorem match_candidate_zero_notifications
    (url external_ip : String) (records : List String)
    (saveOk notifyOk : Bool) (sendOk : Nat → Bool)
    (fs : PersistedChecker.FileState)
    (hmem : external_ip ∈ records)
    (hvalid : is_valid_ip external_ip = true)
    (hread : PersistedChecker.read_saved_ip fs = some external_ip) :
    ((DnsChecker.run url (.ok external_ip) (.answers records)
          sendOk).outcome
        = DnsChecker.Outcome.MATCH ∧
     notifyMsgs (DnsChecker.run url (.ok external_ip)
          (.answers records) sendOk).events = []) ∧
    ((PersistedChecker.run (.ok external_ip) saveOk notifyOk fs).outcome
        = PersistedChecker.Outcome.MATCH ∧
     notifyMsgs (PersistedChecker.run (.ok external_ip)
          saveOk notifyOk fs).events = [] ∧
     saveWrites (PersistedChecker.run (.ok external_ip)
          saveOk notifyOk fs).events = [] ∧
     (PersistedChecker.run (.ok external_ip) saveOk notifyOk fs).file
        = fs) := by
  constructor
  · have hs : (records.find? (fun r => r == external_ip)).isSome := by
      rw [List.find?_isSome]
      exact ⟨external_ip, hmem, by simp⟩
    obtain ⟨r, hr⟩ := Option.isSome_iff_exists.mp hs
    constructor
    · simp [DnsChecker.run, hr]
    · simp [DnsChecker.run, hr, notifyMsgs]
  · have hrun : PersistedChecker.run (.ok external_ip) saveOk notifyOk fs
        = ⟨.MATCH,
           [.logInfo (PersistedChecker.matchLog external_ip external_ip)],
           fs⟩ := by
      simp [PersistedChecker.run, hvalid, hread]
    refine ⟨by rw [hrun], by rw [hrun]; rfl, by rw [hrun]; rfl, by rw [hrun]⟩

/-- Witness for C2: candidate `203.0.113.5` present among the A-records and
equal to the persisted baseline. -/
theorem match_candidate_zero_notifications_witness :
    "203.0.113.5" ∈ (["198.51.100.7", "203.0.113.5"] : List String) ∧
    is_valid_ip "203.0.113.5" = true ∧
    PersistedChecker.read_saved_ip (.present "203.0.113.5")
        = some "203.0.113.5" ∧
    (((DnsChecker.run "example.com" (.ok "203.0.113.5")
          (.answers ["198.51.100.7", "203.0.113.5"])
          (fun _ => true)).outcome
        = DnsChecker.Outcome.MATCH ∧
      notifyMsgs (DnsChecker.run "example.com" (.ok "203.0.113.5")
          (.answers ["198.51.100.7", "203.0.113.5"])
          (fun _ => true)).events = []) ∧
     ((PersistedChecker.run (.ok "203.0.113.5") true true
          (.present "203.0.113.5")).outcome
        = PersistedChecker.Outcome.MATCH ∧
      notifyMsgs (PersistedChecker.run (.ok "203.0.113.5") true true
          (.present "203.0.113.5")).events = [] ∧
      saveWrites (PersistedChecker.run (.ok "203.0.113.5") true true
          (.present "203.0.113.5")).events = [] ∧
      (PersistedChecker.run (.ok "203.0.113.5") true true
          (.present "203.0.113.5")).file = .present "203.0.113.5")) :=
  ⟨by decide, by decide, by decide,
    match_candidate_zero_notifications "example.com" "203.0.113.5"
      ["198.51.100.7", "203.0.113.5"] true true (fun _ => true)
      (.present "203.0.113.5") (by decide) (by decide) (by decide)⟩

/-- C9: DNS variant — each of the three resolution-failure kinds (domain not
found, no A-records, any other DNS-layer failure) makes the run log the
error and return early with zero notifier calls. -/
theorem dns_resolution_failure_no_notify (url external_ip e : String)
    (sendOk : Nat → Bool) :
    (DnsChecker.run url (.ok external_ip) .nxdomain sendOk
        = ⟨.EARLY, [.logError ("Domain " ++ url ++ " does not exist")]⟩ ∧
     notifyMsgs (DnsChecker.run url (.ok external_ip) .nxdomain
          sendOk).events = []) ∧
    (DnsChecker.run url (.ok external_ip) .noAnswer sendOk
        = ⟨.EARLY, [.logError ("No A records found for " ++ url)]⟩ ∧
     notifyMsgs (DnsChecker.run url (.ok external_ip) .noAnswer
          sendOk).events = []) ∧
    (DnsChecker.run url (.ok external_ip) (.failure e) sendOk
        = ⟨.EARLY, [.logError ("DNS resolution failed: " ++ e)]⟩ ∧
     notifyMsgs (DnsChecker.run url (.ok external_ip) (.failure e)
          sendOk).events = []) :=
  ⟨⟨rfl, rfl⟩, ⟨rfl, rfl⟩, ⟨rfl, rfl⟩⟩

/-- C5: persisted variant — for every candidate string that is not a valid
IPv4 or IPv6 address, the run aborts after logging an error, with no save
call, no notifier call, and no mutation of the persisted baseline. -/
theorem invalid_candidate_aborts
    (saveOk notifyOk : Bool) (fs : PersistedChecker.FileState)
    (external_ip : String) (hinvalid : is_valid_ip external_ip = false) :
    PersistedChecker.run (.ok external_ip) saveOk notifyOk fs
        = ⟨.INVALID,
           [.logError "Web service did not respond with a valid IP address!"],
           fs⟩ ∧
    notifyMsgs (PersistedChecker.run (.ok external_ip)
        saveOk notifyOk fs).events = [] ∧
    saveWrites (PersistedChecker.run (.ok external_ip)
        saveOk notifyOk fs).events = [] := by
  have hrun : PersistedChecker.run (.ok external_ip) saveOk notifyOk fs
      = ⟨.INVALID,
         [.logError "Web service did not respond with a valid IP address!"],
         fs⟩ := by
    simp [PersistedChecker.run, hinvalid]
  exact ⟨hrun, by rw [hrun]; rfl, by rw [hrun]; rfl⟩

/-- Witness for C5 at the invalid candidates `999.999.999.999` and the empty
string, with a present baseline. -/
theorem invalid_candidate_aborts_witness :
    is_valid_ip "999.999.999.999" = false ∧
    is_valid_ip "" = false ∧
    (PersistedChecker.run (.ok "999.999.999.999") true true
          (.present "203.0.113.5")
        = ⟨.INVALID,
           [.logError "Web service did not respond with a valid IP address!"],
           .present "203.0.113.5"⟩ ∧
     notifyMsgs (PersistedChecker.run (.ok "999.999.999.999") true true
         (.present "203.0.113.5")).events = [] ∧
     saveWrites (PersistedChecker.run (.ok "999.999.999.999") true true
         (.present "203.0.113.5")).events = []) ∧
    (PersistedChecker.run (.ok "") true true (.present "203.0.113.5")
        = ⟨.INVALID,
           [.logError "Web service did not respond with a valid IP address!"],
           .present "203.0.113.5"⟩ ∧
     notifyMsgs (PersistedChecker.run (.ok "") true true
         (.present "203.0.113.5")).events = [] ∧
     saveWrites (PersistedChecker.run (.ok "") true true
         (.present "203.0.113.5")).events = []) :=
  ⟨by decide, by decide,
    invalid_candidate_aborts true true (.present "203.0.113.5")
      "999.999.999.999" (by decide),
    invalid_candidate_aborts true true (.present "203.0.113.5")
      "" (by decide)⟩

/-- C7: persisted variant — for every IP string X without an embedded
newline (as a validated candidate is), after `save(X)` succeeds a subsequent
`load()` returns exactly X. -/
theorem save_load_roundtrip (X : String) (fs : PersistedChecker.FileState)
    (hnl : '\n' ∉ X.data) :
    (PersistedChecker.save_ip true X fs).1 = true ∧
    PersistedChecker.read_saved_ip (PersistedChecker.save_ip true X fs).2.2
        = some X := by
  refine ⟨rfl, ?_⟩
  show some (PersistedChecker.firstLine X) = some X
  rw [firstLine_eq_self hnl]

/-- Witness for C7 at X = `198.51.100.9` starting from an absent file. -/
theorem save_load_roundtrip_witness :
    '\n' ∉ "198.51.100.9".data ∧
    ((PersistedChecker.save_ip true "198.51.100.9"
          PersistedChecker.FileState.absent).1 = true ∧
     PersistedChecker.read_saved_ip
        (PersistedChecker.save_ip true "198.51.100.9"
          PersistedChecker.FileState.absent).2.2 = some "198.51.100.9") :=
  ⟨by decide, save_load_roundtrip "198.51.100.9" .absent (by decide)⟩

/-- C6: persisted variant — two consecutive runs with the same unchanged
valid candidate and a present baseline equal to it both produce MATCH, with
zero storage writes across both runs and an unchanged file. -/
theorem idempotent_match_runs
    (s1 n1 s2 n2 : Bool) (fs : PersistedChecker.FileState) (X : String)
    (hvalid : is_valid_ip X = true)
    (hread : PersistedChecker.read_saved_ip fs = some X) :
    PersistedChecker.run (.ok X) s1 n1 fs
        = ⟨.MATCH, [.logInfo (PersistedChecker.matchLog X X)], fs⟩ ∧
    PersistedChecker.run (.ok X) s2 n2
          ((PersistedChecker.run (.ok X) s1 n1 fs).file)
        = ⟨.MATCH, [.logInfo (PersistedChecker.matchLog X X)], fs⟩ ∧
    saveWrites (PersistedChecker.run (.ok X) s1 n1 fs).events = [] ∧
    saveWrites (PersistedChecker.run (.ok X) s2 n2
          ((PersistedChecker.run (.ok X) s1 n1 fs).file)).events = [] := by
  have h1 : PersistedChecker.run (.ok X) s1 n1 fs
      = ⟨.MATCH, [.logInfo (PersistedChecker.matchLog X X)], fs⟩ := by
    simp [PersistedChecker.run, hvalid, hread]
  have h2 : PersistedChecker.run (.ok X) s2 n2
        ((PersistedChecker.run (.ok X) s1 n1 fs).file)
      = ⟨.MATCH, [.logInfo (PersistedChecker.matchLog X X)], fs⟩ := by
    rw [h1]
    simp [PersistedChecker.run, hvalid, hread]
  exact ⟨h1, h2, by rw [h1]; rfl, by rw [h2]; rfl⟩

/-- Witness for C6 at X = `203.0.113.5` with the file containing exactly
that value. -/
theorem idempotent_match_runs_witness :
    is_valid_ip "203.0.113.5" = true ∧
    PersistedChecker.read_saved_ip (.present "203.0.113.5")
        = some "203.0.113.5" ∧
    (PersistedChecker.run (.ok "203.0.113.5") true true
          (.present "203.0.113.5")
        = ⟨.MATCH,
           [.logInfo (PersistedChecker.matchLog "203.0.113.5" "203.0.113.5")],
           .present "203.0.113.5"⟩ ∧
     PersistedChecker.run (.ok "203.0.113.5") true true
          ((PersistedChecker.run (.ok "203.0.113.5") true true
              (.present "203.0.113.5")).file)
        = ⟨.MATCH,
           [.logInfo (PersistedChecker.matchLog "203.0.113.5" "203.0.113.5")],
           .present "203.0.113.5"⟩ ∧
     saveWrites (PersistedChecker.run (.ok "203.0.113.5") true true
          (.present "203.0.113.5")).events = [] ∧
     saveWrites (PersistedChecker.run (.ok "203.0.113.5") true true
          ((PersistedChecker.run (.ok "203.0.113.5") true true
              (.present "203.0.113.5")).file)).events = []) :=
  ⟨by decide, by decide,
    idempotent_match_runs true true true true (.present "203.0.113.5")
      "203.0.113.5" (by decide) (by decide)⟩

/-- C4: persisted variant — with no prior baseline and a valid candidate,
when the save succeeds the run performs exactly one save and then exactly
one notifier call announcing the saved IP, in that order; when the save
fails, no notification is sent and the file is unchanged. -/
theorem bootstrap_save_then_notify
    (saveOk notifyOk : Bool) (fs : PersistedChecker.FileState)
    (external_ip : String)
    (hvalid : is_valid_ip external_ip = true)
    (hread : PersistedChecker.read_saved_ip fs = none) :
    (PersistedChecker.run (.ok external_ip) saveOk notifyOk fs).outcome
        = PersistedChecker.Outcome.BOOTSTRAP ∧
    (saveOk = true →
      (PersistedChecker.run (.ok external_ip) saveOk notifyOk fs).events
          = [.saveWrite external_ip,
             .logInfo "External IP saved successfully.",
             .notifyCall (PersistedChecker.bootstrapMsg external_ip)]
            ++ (if notifyOk
                then []
                else [.logError PersistedChecker.unexpectedLog]) ∧
      (PersistedChecker.run (.ok external_ip) saveOk notifyOk fs).file
          = .present external_ip) ∧
    (saveOk = false →
      notifyMsgs (PersistedChecker.run (.ok external_ip)
          saveOk notifyOk fs).events = [] ∧
      saveWrites (PersistedChecker.run (.ok external_ip)
          saveOk notifyOk fs).events = [] ∧
      (PersistedChecker.run (.ok external_ip) saveOk notifyOk fs).file
          = fs) := by
  cases saveOk with
  | true =>
      cases notifyOk with
      | true =>
          have hrun : PersistedChecker.run (.ok external_ip) true true fs
              = ⟨.BOOTSTRAP,
                 [.saveWrite external_ip,
                  .logInfo "External IP saved successfully.",
                  .notifyCall (PersistedChecker.bootstrapMsg external_ip)],
                 .present external_ip⟩ := by
            simp [PersistedChecker.run, PersistedChecker.save_ip,
              hvalid, hread]
          exact ⟨by rw [hrun], fun _ => ⟨by rw [hrun]; rfl, by rw [hrun]⟩,
            fun h => absurd h (by decide)⟩
      | false =>
          have hrun : PersistedChecker.run (.ok external_ip) true false fs
              = ⟨.BOOTSTRAP,
                 [.saveWrite external_ip,
                  .logInfo "External IP saved successfully.",
                  .notifyCall (PersistedChecker.bootstrapMsg external_ip),
                  .logError PersistedChecker.unexpectedLog],
                 .present external_ip⟩ := by
            simp [PersistedChecker.run, PersistedChecker.save_ip,
              hvalid, hread]
          exact ⟨by rw [hrun], fun _ => ⟨by rw [hrun]; rfl, by rw [hrun]⟩,
            fun h => absurd h (by decide)⟩
  | false =>
      have hrun : PersistedChecker.run (.ok external_ip) false notifyOk fs
          = ⟨.BOOTSTRAP,
             [.logError "An error occurred while saving the file."],
             fs⟩ := by
        simp [PersistedChecker.run, PersistedChecker.save_ip, hvalid, hread]
      exact ⟨by rw [hrun], fun h => absurd h (by decide),
        fun _ => ⟨by rw [hrun]; rfl, by rw [hrun]; rfl, by rw [hrun]⟩⟩

/-- Witness for C4 at candidate `198.51.100.9` with no prior file, for both
a succeeding and a failing save. -/
theorem bootstrap_save_then_notify_witness :
    is_valid_ip "198.51.100.9" = true ∧
    PersistedChecker.read_saved_ip .absent = (none : Option String) ∧
    ((PersistedChecker.run (.ok "198.51.100.9") true true .absent).outcome
        = PersistedChecker.Outcome.BOOTSTRAP ∧
     (true = true →
       (PersistedChecker.run (.ok "198.51.100.9") true true .absent).events
           = [.saveWrite "198.51.100.9",
              .logInfo "External IP saved successfully.",
              .notifyCall (PersistedChecker.bootstrapMsg "198.51.100.9")]
             ++ (if true
                 then ([] : List Event)
                 else [.logError PersistedChecker.unexpectedLog]) ∧
       (PersistedChecker.run (.ok "198.51.100.9") true true .absent).file
           = .present "198.51.100.9") ∧
     (true = false →
       notifyMsgs (PersistedChecker.run (.ok "198.51.100.9") true true
           .absent).events = [] ∧
       saveWrites (PersistedChecker.run (.ok "198.51.100.9") true true
           .absent).events = [] ∧
       (PersistedChecker.run (.ok "198.51.100.9") true true .absent).file
           = .absent)) ∧
    ((PersistedChecker.run (.ok "198.51.100.9") false true .absent).outcome
        = PersistedChecker.Outcome.BOOTSTRAP ∧
     (false = true →
       (PersistedChecker.run (.ok "198.51.100.9") false true .absent).events
           = [.saveWrite "198.51.100.9",
              .logInfo "External IP saved successfully.",
              .notifyCall (PersistedChecker.bootstrapMsg "198.51.100.9")]
             ++ (if true
                 then ([] : List Event)
                 else [.logError PersistedChecker.unexpectedLog]) ∧
       (PersistedChecker.run (.ok "198.51.100.9") false true .absent).file
           = .present "198.51.100.9") ∧
     (false = false →
       notifyMsgs (PersistedChecker.run (.ok "198.51.100.9") false true
           .absent).events = [] ∧
       saveWrites (PersistedChecker.run (.ok "198.51.100.9") false true
           .absent).events = [] ∧
       (PersistedChecker.run (.ok "198.51.100.9") false true .absent).file
           = .absent)) :=
  ⟨by decide, rfl,
    bootstrap_save_then_notify true true .absent "198.51.100.9"
      (by decide) rfl,
    bootstrap_save_then_notify false true .absent "198.51.100.9"
      (by decide) rfl⟩

/-- C3 counterexample: baseline `198.51.100.9` present, valid candidate
`198.51.100.10`, a writable file, but a failing notification send.  The
mismatch branch calls `send_message` **before** `_save_ip`; the raised send
exception is caught by the outer `except Exception` handler, so the run ends
with no save at all — the notification failure prevents the state mutation,
contradicting the claimed independence. -/
theorem mismatch_notify_failure_skips_save_cex :
    (PersistedChecker.run (.ok "198.51.100.10") true false
          (.present "198.51.100.9")).outcome
        = PersistedChecker.Outcome.MISMATCH ∧
    notifyMsgs (PersistedChecker.run (.ok "198.51.100.10") true false
          (.present "198.51.100.9")).events
        = [PersistedChecker.mismatchMsg "198.51.100.9" "198.51.100.10"] ∧
    saveWrites (PersistedChecker.run (.ok "198.51.100.10") true false
          (.present "198.51.100.9")).events = [] ∧
    (PersistedChecker.run (.ok "198.51.100.10") true false
          (.present "198.51.100.9")).file
        = .present "198.51.100.9" := by
  decide

/-- C3 (amended): persisted variant, MISMATCH path — exactly one
notification naming both previous and current IP is attempted; when the send
succeeds, `save(candidate)` is then performed (advancing the baseline iff
the write succeeds, the write result being ignored); when the send raises,
the outer exception handler logs it and the run ends **before** the save,
leaving the baseline unchanged. -/
theorem persisted_mismatch_notify_then_save
    (saveOk notifyOk : Bool) (fs : PersistedChecker.FileState)
    (saved_ip external_ip : String)
    (hvalid : is_valid_ip external_ip = true)
    (hread : PersistedChecker.read_saved_ip fs = some saved_ip)
    (hne : saved_ip ≠ external_ip) :
    (PersistedChecker.run (.ok external_ip) saveOk notifyOk fs).outcome
        = PersistedChecker.Outcome.MISMATCH ∧
    notifyMsgs (PersistedChecker.run (.ok external_ip)
          saveOk notifyOk fs).events
        = [PersistedChecker.mismatchMsg saved_ip external_ip] ∧
    (notifyOk = true → saveOk = true →
      saveWrites (PersistedChecker.run (.ok external_ip)
          saveOk notifyOk fs).events = [external_ip] ∧
      (PersistedChecker.run (.ok external_ip) saveOk notifyOk fs).file
          = .present external_ip) ∧
    (notifyOk = true → saveOk = false →
      saveWrites (PersistedChecker.run (.ok external_ip)
          saveOk notifyOk fs).events = [] ∧
      (PersistedChecker.run (.ok external_ip) saveOk notifyOk fs).file
          = fs) ∧
    (notifyOk = false →
      saveWrites (PersistedChecker.run (.ok external_ip)
          saveOk notifyOk fs).events = [] ∧
      (PersistedChecker.run (.ok external_ip) saveOk notifyOk fs).file
          = fs) := by
  cases notifyOk with
  | true =>
      cases saveOk with
      | true =>
          have hrun : PersistedChecker.run (.ok external_ip) true true fs
              = ⟨.MISMATCH,
                 [.notifyCall
                    (PersistedChecker.mismatchMsg saved_ip external_ip),
                  .logError
                    (PersistedChecker.mismatchLog saved_ip external_ip),
                  .saveWrite external_ip,
                  .logInfo "External IP saved successfully."],
                 .present external_ip⟩ := by
            simp [PersistedChecker.run, PersistedChecker.save_ip,
              hvalid, hread, hne]
          exact ⟨by rw [hrun], by rw [hrun]; rfl,
            fun _ _ => ⟨by rw [hrun]; rfl, by rw [hrun]⟩,
            fun _ h => absurd h (by decide),
            fun h => absurd h (by decide)⟩
      | false =>
          have hrun : PersistedChecker.run (.ok external_ip) false true fs
              = ⟨.MISMATCH,
                 [.notifyCall
                    (PersistedChecker.mismatchMsg saved_ip external_ip),
                  .logError
                    (PersistedChecker.mismatchLog saved_ip external_ip),
                  .logError "An error occurred while saving the file."],
                 fs⟩ := by
            simp [PersistedChecker.run, PersistedChecker.save_ip,
              hvalid, hread, hne]
          exact ⟨by rw [hrun], by rw [hrun]; rfl,
            fun _ h => absurd h (by decide),
            fun _ _ => ⟨by rw [hrun]; rfl, by rw [hrun]⟩,
            fun h => absurd h (by decide)⟩
  | false =>
      have hrun : PersistedChecker.run (.ok external_ip) saveOk false fs
          = ⟨.MISMATCH,
             [.notifyCall
                (PersistedChecker.mismatchMsg saved_ip external_ip),
              .logError PersistedChecker.unexpectedLog],
             fs⟩ := by
        simp [PersistedChecker.run, hvalid, hread, hne]
      exact ⟨by rw [hrun], by rw [hrun]; rfl,
        fun h _ => absurd h (by decide),
        fun h _ => absurd h (by decide),
        fun _ => ⟨by rw [hrun]; rfl, by rw [hrun]⟩⟩

/-- Witness for the amended C3 at previous IP `198.51.100.9`, current IP
`198.51.100.10`, with a succeeding send and a writable file. -/
theorem persisted_mismatch_notify_then_save_witness :
    is_valid_ip "198.51.100.10" = true ∧
    PersistedChecker.read_saved_ip (.present "198.51.100.9")
        = some "198.51.100.9" ∧
    "198.51.100.9" ≠ "198.51.100.10" ∧
    ((PersistedChecker.run (.ok "198.51.100.10") true true
          (.present "198.51.100.9")).outcome
        = PersistedChecker.Outcome.MISMATCH ∧
     notifyMsgs (PersistedChecker.run (.ok "198.51.100.10") true true
          (.present "198.51.100.9")).events
        = [PersistedChecker.mismatchMsg "198.51.100.9" "198.51.100.10"] ∧
     (true = true → true = true →
       saveWrites (PersistedChecker.run (.ok "198.51.100.10") true true
           (.present "198.51.100.9")).events = ["198.51.100.10"] ∧
       (PersistedChecker.run (.ok "198.51.100.10") true true
           (.present "198.51.100.9")).file = .present "198.51.100.10") ∧
     (true = true → true = false →
       saveWrites (PersistedChecker.run (.ok "198.51.100.10") true true
           (.present "198.51.100.9")).events = [] ∧
       (PersistedChecker.run (.ok "198.51.100.10") true true
           (.present "198.51.100.9")).file = .present "198.51.100.9") ∧
     (true = false →
       saveWrites (PersistedChecker.run (.ok "198.51.100.10") true true
           (.present "198.51.100.9")).events = [] ∧
       (PersistedChecker.run (.ok "198.51.100.10") true true
           (.present "198.51.100.9")).file = .present "198.51.100.9")) :=
  ⟨by decide, by decide, by decide,
    persisted_mismatch_notify_then_save true true (.present "198.51.100.9")
      "198.51.100.9" "198.51.100.10" (by decide) (by decide) (by decide)⟩

/-- C8 counterexample: with an unreadable (but existing) baseline file, a
valid candidate and a writable store, the run does not abort with a storage
error — it takes the bootstrap path exactly as for an absent file, and even
overwrites the unreadable file.  `_read_saved_ip` catches every `IOError`
and returns `None`, conflating read failure with "no baseline yet". -/
theorem read_failure_bootstraps_cex :
    (PersistedChecker.run (.ok "203.0.113.5") true true .unreadable).outcome
        = PersistedChecker.Outcome.BOOTSTRAP ∧
    PersistedChecker.run (.ok "203.0.113.5") true true .unreadable
        = PersistedChecker.run (.ok "203.0.113.5") true true .absent ∧
    saveWrites (PersistedChecker.run (.ok "203.0.113.5") true true
        .unreadable).events = ["203.0.113.5"] := by
  decide

/-- C8 (amended): persisted variant — a read failure of the baseline storage
other than the file being absent is **not** surfaced as a distinct storage
error: `_read_saved_ip` returns `None` for it, so every run behaves (in
decision and effects) exactly as if no baseline existed yet (BOOTSTRAP). -/
theorem read_failure_treated_as_absent
    (fetch : Except String String) (saveOk notifyOk : Bool) :
    PersistedChecker.read_saved_ip .unreadable = none ∧
    (PersistedChecker.run fetch saveOk notifyOk .unreadable).outcome
        = (PersistedChecker.run fetch saveOk notifyOk .absent).outcome ∧
    (PersistedChecker.run fetch saveOk notifyOk .unreadable).events
        = (PersistedChecker.run fetch saveOk notifyOk .absent).events := by
  refine ⟨rfl, ?_, ?_⟩ <;>
  · cases fetch with
    | error e => rfl
    | ok ip =>
        cases hv : is_valid_ip ip <;> cases saveOk <;> cases notifyOk <;>
          simp [PersistedChecker.run, PersistedChecker.read_saved_ip,
            PersistedChecker.save_ip, hv]

/-- C10: persisted variant — the loaded baseline is never validated: any
stored first line S (valid IP or not) differing from a valid candidate C
produces MISMATCH and (with the collaborators succeeding) the file is
overwritten with C; and every content ever written by `_save_ip` during a
run is a candidate that passed `is_valid_ip`, so a successful save always
leaves a syntactically valid IP in the file (an invalid baseline is
self-healing). -/
theorem stale_baseline_unvalidated_self_heals
    (F C c : String) (fetch : Except String String)
    (saveOk notifyOk : Bool) (fs : PersistedChecker.FileState) :
    (is_valid_ip C = true → PersistedChecker.firstLine F ≠ C →
      (PersistedChecker.run (.ok C) true true (.present F)).outcome
          = PersistedChecker.Outcome.MISMATCH ∧
      (PersistedChecker.run (.ok C) true true (.present F)).file
          = .present C) ∧
    (Event.saveWrite c
        ∈ (PersistedChecker.run fetch saveOk notifyOk fs).events →
      is_valid_ip c = true) := by
  constructor
  · intro hvalid hne
    constructor <;>
      simp [PersistedChecker.run, PersistedChecker.read_saved_ip,
        PersistedChecker.save_ip, hvalid, hne]
  · intro hmem
    cases fetch with
    | error e => simp [PersistedChecker.run] at hmem
    | ok ip =>
        cases hv : is_valid_ip ip with
        | false => simp [PersistedChecker.run, hv] at hmem
        | true =>
            cases hr : PersistedChecker.read_saved_ip fs with
            | none =>
                cases saveOk <;> cases notifyOk <;>
                  simp [PersistedChecker.run, PersistedChecker.save_ip,
                    hv, hr] at hmem <;>
                  exact hmem ▸ hv
            | some saved =>
                by_cases hs : saved = ip
                · simp [PersistedChecker.run, hv, hr, hs] at hmem
                · cases saveOk <;> cases notifyOk <;>
                    simp [PersistedChecker.run, PersistedChecker.save_ip,
                      hv, hr, hs] at hmem <;>
                    exact hmem ▸ hv

/-- Witness for C10: stored line `not-an-ip` (not a valid IP), valid
candidate `203.0.113.5`; the run mismatches and overwrites the file, and the
write observed in that very run carries a validated IP. -/
theorem stale_baseline_unvalidated_self_heals_witness :
    is_valid_ip "203.0.113.5" = true ∧
    PersistedChecker.firstLine "not-an-ip" ≠ "203.0.113.5" ∧
    ((PersistedChecker.run (.ok "203.0.113.5") true true
          (.present "not-an-ip")).outcome
        = PersistedChecker.Outcome.MISMATCH ∧
     (PersistedChecker.run (.ok "203.0.113.5") true true
          (.present "not-an-ip")).file = .present "203.0.113.5") ∧
    Event.saveWrite "203.0.113.5"
        ∈ (PersistedChecker.run (.ok "203.0.113.5") true true
            (.present "not-an-ip")).events ∧
    is_valid_ip "203.0.113.5" = true :=
  ⟨by decide, by decide,
    (stale_baseline_unvalidated_self_heals "not-an-ip" "203.0.113.5"
        "203.0.113.5" (.ok "203.0.113.5") true true
        (.present "not-an-ip")).1 (by decide) (by decide),
    by decide,
    (stale_baseline_unvalidated_self_heals "not-an-ip" "203.0.113.5"
        "203.0.113.5" (.ok "203.0.113.5") true true
        (.present "not-an-ip")).2 (by decide)⟩
